import Mathlib

/-!
Verification of the Makibania Modpack Installer orchestration layer.

The definitions below are a shallow embedding of the React/Tauri frontend:
`src/components/screens/InstallerScreen.tsx` (run state machine, event
handling, run resolution, alert removal), `src/App.tsx` (mode selection) and
`src/utils/localizer.ts` (the `Translation` record and its English table).
State hooks become record fields, event callbacks become pure state
transformers, and the JavaScript dynamic property access used for alert
localization becomes an explicit `Option`-returning lookup.
-/

namespace Makibania

/-- The two installer modes (`installerModes` in InstallerScreen.tsx). -/
inductive InstallerMode where
  | install
  | update
deriving DecidableEq, Repr

/-- The `Translation` interface of `src/utils/localizer.ts` (current
version, the one carrying `error`, `installFailed`, `updateFailed`,
`phaseFinishInstall`, `phaseFinishUpdate`, `phaseRemoveMods`,
`phaseUpdateSettings` and `openLogFolder`). All fields are strings. -/
structure Translation where
  alertOnLaunchModLoader : String
  alertOnFailedAddProfile : String
  alertOnFailedLaunchModLoader : String
  appTitle : String
  close : String
  complete : String
  error : String
  install : String
  installFailed : String
  installerTitle : String
  languageOptionEn : String
  languageOptionJa : String
  languageSelectionLabel : String
  occurredError : String
  openLogFolder : String
  phaseAddProfile : String
  phaseDownloadModLoader : String
  phaseDownloadMods : String
  phaseDownloadResources : String
  phaseFinishInstall : String
  phaseFinishUpdate : String
  phaseLaunchModLoader : String
  phaseRemoveMods : String
  phaseStart : String
  phaseUpdateSettings : String
  titleMessage : String
  update : String
  updateFailed : String
deriving DecidableEq, Repr

/-- JavaScript dynamic property access `translation[key as keyof Translation]`
(InstallerScreen.tsx, `addAlert` handling). A `Translation` value is a plain
object at runtime, so indexing with a string that is one of its property
names yields that property and indexing with any other string yields
`undefined`, modelled as `none`. -/
def Translation.lookup (t : Translation) : String → Option String
  | "alertOnLaunchModLoader" => some t.alertOnLaunchModLoader
  | "alertOnFailedAddProfile" => some t.alertOnFailedAddProfile
  | "alertOnFailedLaunchModLoader" => some t.alertOnFailedLaunchModLoader
  | "appTitle" => some t.appTitle
  | "close" => some t.close
  | "complete" => some t.complete
  | "error" => some t.error
  | "install" => some t.install
  | "installFailed" => some t.installFailed
  | "installerTitle" => some t.installerTitle
  | "languageOptionEn" => some t.languageOptionEn
  | "languageOptionJa" => some t.languageOptionJa
  | "languageSelectionLabel" => some t.languageSelectionLabel
  | "occurredError" => some t.occurredError
  | "openLogFolder" => some t.openLogFolder
  | "phaseAddProfile" => some t.phaseAddProfile
  | "phaseDownloadModLoader" => some t.phaseDownloadModLoader
  | "phaseDownloadMods" => some t.phaseDownloadMods
  | "phaseDownloadResources" => some t.phaseDownloadResources
  | "phaseFinishInstall" => some t.phaseFinishInstall
  | "phaseFinishUpdate" => some t.phaseFinishUpdate
  | "phaseLaunchModLoader" => some t.phaseLaunchModLoader
  | "phaseRemoveMods" => some t.phaseRemoveMods
  | "phaseStart" => some t.phaseStart
  | "phaseUpdateSettings" => some t.phaseUpdateSettings
  | "titleMessage" => some t.titleMessage
  | "update" => some t.update
  | "updateFailed" => some t.updateFailed
  | _ => none

/-- The English table `translations.en` of `src/utils/localizer.ts`. -/
def translationEn : Translation where
  alertOnLaunchModLoader := "The mod loader will be launched. Please ensure that \x27Install client\x27 is checked, then click \x27Next\x27."
  alertOnFailedAddProfile := "Failed to add profile. Please launch the Minecraft launcher and add it manually."
  alertOnFailedLaunchModLoader := "Failed to launch mod loader. Please run the downloaded mod loader manually."
  appTitle := "Makibania Modpack Installer"
  close := "Close"
  complete := "Complete"
  error := "Error"
  install := "Install"
  installFailed := "Installation failed.\nDetails: "
  installerTitle := "Installer"
  languageOptionEn := "English"
  languageOptionJa := "Japanese"
  languageSelectionLabel := "Display language"
  occurredError := "An error has occurred.\nDetails: "
  openLogFolder := "Open log folder"
  phaseAddProfile := "Adding profile..."
  phaseDownloadModLoader := "Downloading mod loader..."
  phaseDownloadMods := "Downloading mods..."
  phaseDownloadResources := "Downloading resources..."
  phaseFinishInstall := "Installation finished."
  phaseFinishUpdate := "Update finished."
  phaseLaunchModLoader := "Launching mod loader..."
  phaseRemoveMods := "Removing unnecessary mods..."
  phaseStart := "Starting installation..."
  phaseUpdateSettings := "Updating settings..."
  titleMessage := "Choose how you want to proceed."
  update := "Update"
  updateFailed := "Update failed.\nDetails: "

/-- Alert severity carried by `addAlert` events (`"info" | "warning"`). -/
inductive AlertLevel where
  | info
  | warning
deriving DecidableEq, Repr

/-- `AlertInfo` from InstallerScreen.tsx. The TypeScript field `message` is
declared `string`, but the value stored for an unknown translation key is
`undefined` because of the unchecked `as keyof Translation` cast, so the
runtime type is `string | undefined`, modelled as `Option String`. -/
structure AlertInfo where
  level : AlertLevel
  message : Option String
deriving DecidableEq, Repr

/-- The `InstallerEvent` wire union of InstallerScreen.tsx. The `phase` tag
is a string on the wire (the TypeScript annotation lists seven identifiers,
but the runtime value decoded from the channel payload is an arbitrary
string, which is exactly what the `switch` statement scrutinises). -/
inductive InstallerEvent where
  | changePhase (phase : String)
  | changeDetail (detail : String)
  | updateProgress (progress : ℚ)
  | addAlert (level : AlertLevel) (translation_key : String)
deriving DecidableEq, Repr

/-- JavaScript `Math.round`: rounds to the nearest integer, halves toward
positive infinity, i.e. `Math.round(x) = floor(x + 0.5)`. -/
def jsRound (q : ℚ) : ℤ :=
  ⌊q + 1 / 2⌋

/-- The six state hooks of `InstallerScreen`: `phase`, `detail`,
`progress`, `isFinished`, `alerts`, `errorMessage`. `progress` holds
`Math.round(payload.progress * 100)`, an integer. -/
structure RunState where
  phase : String
  detail : String
  progress : ℤ
  isFinished : Bool
  alerts : List AlertInfo
  errorMessage : Option String
deriving DecidableEq, Repr

/-- The run outcome abstraction used by the specification: `Running` until a
terminal hook is set, `Errored` once `errorMessage` is non-null, `Finished`
once `isFinished` is set. -/
inductive Outcome where
  | running
  | finished
  | errored (message : String)
deriving DecidableEq, Repr

/-- The outcome read off a `RunState`. -/
def RunState.outcome (s : RunState) : Outcome :=
  match s.errorMessage with
  | some m => .errored m
  | none => if s.isFinished then .finished else .running

/-- The initial hook values of `InstallerScreen`: phase shows
`translation.phaseStart`, detail empty, progress 0, not finished, no
alerts, no error. -/
def initialState (t : Translation) : RunState where
  phase := t.phaseStart
  detail := ""
  progress := 0
  isFinished := false
  alerts := []
  errorMessage := none

/-- The `listen` callback of InstallerScreen.tsx: the `switch` over
`payload.type`, with the inner `switch` over `payload.phase` for
`changePhase`. Note that the `changePhase` arm clears `detail` before the
inner switch and that an unrecognised phase tag hits no `case`, and that the
`updateProgress` arm stores `Math.round(progress * 100)` without clamping. -/
def handleEvent (t : Translation) (s : RunState) : InstallerEvent → RunState
  | .changePhase p =>
    let s := { s with detail := "" }
    match p with
    | "downloadModLoader" => { s with phase := t.phaseDownloadModLoader }
    | "removeMods" => { s with phase := t.phaseRemoveMods }
    | "downloadMods" => { s with phase := t.phaseDownloadMods }
    | "downloadResources" => { s with phase := t.phaseDownloadResources }
    | "updateSettings" => { s with phase := t.phaseUpdateSettings }
    | "addProfile" => { s with phase := t.phaseAddProfile }
    | "launchModLoader" => { s with phase := t.phaseLaunchModLoader }
    | _ => s
  | .changeDetail d => { s with detail := d }
  | .updateProgress p => { s with progress := jsRound (p * 100) }
  | .addAlert level key =>
    { s with alerts := s.alerts ++ [{ level := level, message := t.lookup key }] }

/-- Delivering a finite sequence of channel events in order (the channel is
FIFO, each event is processed by the `listen` callback). -/
def runEvents (t : Translation) (s : RunState) (events : List InstallerEvent) : RunState :=
  events.foldl (handleEvent t) s

/-- Result of the blocking `invoke ("run_installer")` call: it either
resolves, or rejects with an error detail that the `catch` block converts to
a string (`typeof e === "string" ? e : String(e)`); the rejection value of
the Tauri command is already a string, so the conversion is the identity and
the model carries the string directly. -/
inductive RunResult where
  | success
  | failure (message : String)
deriving DecidableEq, Repr

/-- The code after `await invoke ("run_installer", ...)` in
`runInstaller`: on resolution set the mode-specific finish phase label,
clear detail and set `isFinished`; on rejection set `errorMessage`.
Progress is not touched on either path. -/
def resolveRun (t : Translation) (mode : InstallerMode) (s : RunState) : RunResult → RunState
  | .success =>
    { s with
      phase := match mode with
        | .install => t.phaseFinishInstall
        | .update => t.phaseFinishUpdate
      detail := ""
      isFinished := true }
  | .failure e => { s with errorMessage := some e }

/-- The error dialog body of InstallerScreen.tsx: the mode-specific framing
string (`installFailed` vs `updateFailed`) concatenated with
`errorMessage`. This is computed in the render, not stored in any hook. -/
def errorDialogText (t : Translation) (mode : InstallerMode) (msg : String) : String :=
  (match mode with
    | .install => t.installFailed
    | .update => t.updateFailed) ++ msg

/-- A mounted `InstallerScreen` together with its channel subscription: the
`unlisten` handle is live (`subscribed = true`) from the `listen` call until
the effect cleanup runs. -/
structure ScreenSession where
  subscribed : Bool
  state : RunState
deriving DecidableEq, Repr

/-- Delivery of a channel event to the session: the `listen` callback fires
and mutates the hooks exactly when the subscription is still live. -/
def deliver (t : Translation) (sess : ScreenSession) (e : InstallerEvent) : ScreenSession :=
  if sess.subscribed then { sess with state := handleEvent t sess.state e } else sess

/-- The terminal transition of the run (`run_installer` resolved or
rejected). The code only sets hooks here; `unlisten` is not called, so
the subscription stays live. -/
def finishSession (t : Translation) (mode : InstallerMode) (r : RunResult)
    (sess : ScreenSession) : ScreenSession :=
  { sess with state := resolveRun t mode sess.state r }

/-- The effect cleanup returned by `useEffect` (runs on unmount): calls
`unlisten` when it is set, releasing the subscription. -/
def unmount (sess : ScreenSession) : ScreenSession :=
  { sess with subscribed := false }

/-- The body of the `useEffect` of `InstallerScreen` as a function of the
`isInstalling.current` ref: returns the new ref value and whether
`runInstaller` was invoked. When the ref is already set the effect returns
immediately; otherwise it sets the ref and starts the run. -/
def installerEffect (isInstalling : Bool) : Bool × Bool :=
  if isInstalling then (isInstalling, false) else (true, true)

/-- Screens of `App.tsx`. -/
inductive Screen where
  | title
  | installer
deriving DecidableEq, Repr

/-- `ModeResult` of App.tsx: `{isAccept: boolean; error?: string}`. -/
structure ModeResult where
  isAccept : Bool
  error : Option String
deriving DecidableEq, Repr

/-- The App.tsx hooks relevant to mode selection. -/
structure AppState where
  screen : Screen
  installerMode : Option InstallerMode
  errorMessage : Option String
deriving DecidableEq, Repr

/-- JavaScript `result.error || "<unknown error>"`: `undefined` and the
empty string are both falsy, so either yields the fallback literal. -/
def orFallback : Option String → String
  | some s => if s = "" then "<unknown error>" else s
  | none => "<unknown error>"

/-- The `onModeSelect` continuation in App.tsx after `invoke ("select_mode")`
returned `result`: on rejection show the error dialog and stay; on
acceptance freeze the mode and switch to the installer screen. -/
def onModeSelect (t : Translation) (st : AppState) (mode : InstallerMode)
    (result : ModeResult) : AppState :=
  if !result.isAccept then
    { st with errorMessage := some (t.occurredError ++ orFallback result.error) }
  else
    { st with installerMode := some mode, screen := .installer }

/-- The `onClose` handler of one rendered alert:
`alerts.filter((_, i) => i !== index)` where `index` is the render position
of the dismissed alert. -/
def removeAlert (alerts : List AlertInfo) (index : ℕ) : List AlertInfo :=
  ((alerts.enum).filter (fun p => p.1 ≠ index)).map Prod.snd

/-- The seven phase tags the `changePhase` switch recognises. -/
def knownPhaseTags : List String :=
  ["downloadModLoader", "removeMods", "downloadMods", "downloadResources",
   "updateSettings", "addProfile", "launchModLoader"]

/-- The phase label the switch assigns to each recognised tag. -/
def knownPhaseLabel (t : Translation) : String → Option String
  | "downloadModLoader" => some t.phaseDownloadModLoader
  | "removeMods" => some t.phaseRemoveMods
  | "downloadMods" => some t.phaseDownloadMods
  | "downloadResources" => some t.phaseDownloadResources
  | "updateSettings" => some t.phaseUpdateSettings
  | "addProfile" => some t.phaseAddProfile
  | "launchModLoader" => some t.phaseLaunchModLoader
  | _ => none

/-- The display value the specification prescribes for an `updateProgress`
payload `p`: `round` of `p` clamped to `[0, 1]`, times 100. -/
def clampedDisplay (p : ℚ) : ℤ :=
  jsRound (max 0 (min p 1) * 100)

/-! ## Helper lemmas -/

/-- A `changePhase` event whose tag is one of the seven recognised
identifiers sets the mapped label and clears the detail text, and changes
nothing else. -/
theorem handleEvent_changePhase_known (t : Translation) (s : RunState) (tag label : String)
    (h : knownPhaseLabel t tag = some label) :
    handleEvent t s (.changePhase tag) = { s with phase := label, detail := "" } := by
  unfold knownPhaseLabel at h
  split at h
  all_goals simp_all [handleEvent]

/-- A `changePhase` event whose tag is not recognised falls through every
case of the inner switch: only the detail reset that precedes the switch
takes effect. -/
theorem handleEvent_changePhase_unknown (t : Translation) (s : RunState) (tag : String)
    (h : tag ∉ knownPhaseTags) :
    handleEvent t s (.changePhase tag) = { s with detail := "" } := by
  simp only [knownPhaseTags, List.mem_cons, List.mem_singleton, not_or] at h
  obtain ⟨h1, h2, h3, h4, h5, h6, h7⟩ := h
  simp only [handleEvent]
  split
  all_goals simp_all

/-- The index-based filter of the alert `onClose` handler agrees with
removal of the element at the given position, for every starting offset of
the enumeration. -/
theorem removeAlertAux (l : List AlertInfo) : ∀ n i : ℕ,
    (((List.enumFrom n l).filter (fun p => p.1 ≠ i)).map Prod.snd) =
      if i < n then l else l.eraseIdx (i - n) := by
  induction l with
  | nil => intro n i; simp
  | cons a t ih =>
    intro n i
    have ih2 : ∀ m : ℕ,
        List.map Prod.snd (List.filter (fun p => !decide (p.1 = i)) (List.enumFrom m t)) =
          if i < m then t else t.eraseIdx (i - m) := by
      intro m
      simpa using ih m i
    rcases Nat.lt_trichotomy i n with h | h | h
    · have hne : n ≠ i := by omega
      have h1 : i < n + 1 := by omega
      simp [List.filter_cons, hne, ih2 (n + 1), h1, h]
    · subst h
      simp [List.filter_cons, ih2 (i + 1), Nat.lt_irrefl, Nat.sub_self, List.eraseIdx]
    · have hne : n ≠ i := by omega
      have h1 : ¬ i < n + 1 := by omega
      have h2 : ¬ i < n := by omega
      obtain ⟨k, hk⟩ : ∃ k, i - n = k + 1 := ⟨i - n - 1, by omega⟩
      have hk2 : i - (n + 1) = k := by omega
      simp [List.filter_cons, hne, ih2 (n + 1), h1, h2, hk, hk2, List.eraseIdx]

/-! ## Claims -/

/-- Claim C1, counterexample: after an `updateProgress 0.5` event the stored
progress is 50; a subsequent `changePhase downloadMods` event leaves it at
50, so the handler does not reset progress to 0 on a phase change as the
claim states (detail is reset and the phase label is set as claimed). -/
theorem C1_progress_not_reset_cex :
    (handleEvent translationEn
        (handleEvent translationEn (initialState translationEn) (.updateProgress (1 / 2)))
        (.changePhase "downloadMods")).progress = 50 ∧
      (handleEvent translationEn
        (handleEvent translationEn (initialState translationEn) (.updateProgress (1 / 2)))
        (.changePhase "downloadMods")).progress ≠ 0 := by
  have h : (handleEvent translationEn
      (handleEvent translationEn (initialState translationEn) (.updateProgress (1 / 2)))
      (.changePhase "downloadMods")).progress = 50 := by
    simp [handleEvent, initialState]
    norm_num [jsRound]
  exact ⟨h, by rw [h]; decide⟩

/-- Claim C1, amended: every `changePhase` event with a recognised tag sets
the phase to the mapped label and resets detail to the empty string, but
leaves progress (and every other field) unchanged; progress is not reset. -/
theorem C1_changePhase_resets_detail_only (t : Translation) (s : RunState) (tag label : String)
    (h : knownPhaseLabel t tag = some label) :
    handleEvent t s (.changePhase tag) = { s with phase := label, detail := "" } :=
  handleEvent_changePhase_known t s tag label h

/-- Claim C1, witness: the amended statement at a concrete state with
progress 50 and the tag downloadMods. -/
theorem C1_changePhase_resets_detail_only_witness :
    handleEvent translationEn
        { phase := "p", detail := "d", progress := 50, isFinished := false,
          alerts := [], errorMessage := none }
        (.changePhase "downloadMods") =
      { phase := translationEn.phaseDownloadMods, detail := "", progress := 50,
        isFinished := false, alerts := [], errorMessage := none } :=
  C1_changePhase_resets_detail_only translationEn
    { phase := "p", detail := "d", progress := 50, isFinished := false,
      alerts := [], errorMessage := none }
    "downloadMods" translationEn.phaseDownloadMods (by decide)

/-- Claim C2, counterexample: the terminal transition does not release the
subscription (the `unlisten` call lives only in the effect cleanup), so an
`updateProgress` event delivered after the run has finished still mutates
the run state. -/
theorem C2_post_terminal_event_mutates_cex :
    (finishSession translationEn .install .success
        ⟨true, initialState translationEn⟩).state.outcome = .finished ∧
      (deliver translationEn
          (finishSession translationEn .install .success ⟨true, initialState translationEn⟩)
          (.updateProgress (1 / 2))).state ≠
        (finishSession translationEn .install .success
          ⟨true, initialState translationEn⟩).state := by
  refine ⟨by decide, fun h => ?_⟩
  have hp := congrArg RunState.progress h
  simp [deliver, finishSession, resolveRun, handleEvent, initialState] at hp
  norm_num [jsRound] at hp

/-- Claim C2, amended: the subscription is released only by the effect
cleanup on unmount, not synchronously with the terminal transition: the
terminal transition leaves the subscription flag unchanged, and only after
unmount does every delivered event leave the session unchanged. -/
theorem C2_unsubscribe_only_on_unmount (t : Translation) (mode : InstallerMode)
    (r : RunResult) (sess : ScreenSession) (e : InstallerEvent) :
    (finishSession t mode r sess).subscribed = sess.subscribed ∧
      deliver t (unmount sess) e = unmount sess := by
  constructor
  · rfl
  · simp [deliver, unmount]

/-- Claim C3, counterexample: `updateProgress` stores
`Math.round(p * 100)` without clamping: the payload -0.2 yields a stored
progress of -20 and the payload 1.7 yields 170, while the claimed clamped
display would be 0 and 100 respectively. -/
theorem C3_progress_not_clamped_cex :
    (handleEvent translationEn (initialState translationEn)
        (.updateProgress (-(1 / 5)))).progress = -20 ∧
      (handleEvent translationEn (initialState translationEn)
        (.updateProgress (17 / 10))).progress = 170 ∧
      clampedDisplay (-(1 / 5)) = 0 ∧
      clampedDisplay (17 / 10) = 100 ∧
      (handleEvent translationEn (initialState translationEn)
        (.updateProgress (-(1 / 5)))).progress ≠ clampedDisplay (-(1 / 5)) := by
  have h1 : (handleEvent translationEn (initialState translationEn)
      (.updateProgress (-(1 / 5)))).progress = -20 := by
    simp [handleEvent]
    norm_num [jsRound]
  have h2 : (handleEvent translationEn (initialState translationEn)
      (.updateProgress (17 / 10))).progress = 170 := by
    simp [handleEvent]
    norm_num [jsRound]
  have h3 : clampedDisplay (-(1 / 5)) = 0 := by
    norm_num [clampedDisplay, jsRound]
  have h4 : clampedDisplay (17 / 10) = 100 := by
    norm_num [clampedDisplay, jsRound]
  refine ⟨h1, h2, h3, h4, ?_⟩
  rw [h1, h3]
  decide

/-- Claim C3, amended: an `updateProgress` event with payload p stores
`round(p * 100)` without clamping and changes nothing else; the handler is
total, so no out-of-range input causes a failure, but out-of-range payloads
produce out-of-range stored values (-0.2 yields -20, 1.7 yields 170). -/
theorem C3_progress_unclamped (t : Translation) (s : RunState) (p : ℚ) :
    handleEvent t s (.updateProgress p) = { s with progress := jsRound (p * 100) } ∧
      jsRound ((-(1 / 5) : ℚ) * 100) = -20 ∧
      jsRound ((17 / 10 : ℚ) * 100) = 170 := by
  refine ⟨rfl, ?_, ?_⟩ <;> norm_num [jsRound]

/-- Claim C4, counterexample: in scenario A (install mode, events
changePhase downloadModLoader, updateProgress 0.5, changePhase downloadMods,
updateProgress 1.0, then a successful run call) the final state has outcome
Finished and the install finish label as claimed, but its progress is 100,
not 0: neither the phase changes nor the success resolution reset it. -/
theorem C4_scenarioA_progress_cex :
    (resolveRun translationEn .install
        (runEvents translationEn (initialState translationEn)
          [.changePhase "downloadModLoader", .updateProgress (1 / 2),
           .changePhase "downloadMods", .updateProgress 1])
        .success).outcome = .finished ∧
      (resolveRun translationEn .install
        (runEvents translationEn (initialState translationEn)
          [.changePhase "downloadModLoader", .updateProgress (1 / 2),
           .changePhase "downloadMods", .updateProgress 1])
        .success).phase = translationEn.phaseFinishInstall ∧
      (resolveRun translationEn .install
        (runEvents translationEn (initialState translationEn)
          [.changePhase "downloadModLoader", .updateProgress (1 / 2),
           .changePhase "downloadMods", .updateProgress 1])
        .success).progress = 100 ∧
      (resolveRun translationEn .install
        (runEvents translationEn (initialState translationEn)
          [.changePhase "downloadModLoader", .updateProgress (1 / 2),
           .changePhase "downloadMods", .updateProgress 1])
        .success).progress ≠ 0 := by
  have h : (resolveRun translationEn .install
      (runEvents translationEn (initialState translationEn)
        [.changePhase "downloadModLoader", .updateProgress (1 / 2),
         .changePhase "downloadMods", .updateProgress 1])
      .success).progress = 100 := by
    simp [runEvents, List.foldl, handleEvent, resolveRun]
    norm_num [jsRound]
  refine ⟨by decide, by decide, h, by rw [h]; decide⟩

/-- Claim C4, amended: a successful run call resolves to outcome Finished
with the mode-specific finish label and empty detail, but progress keeps its
last value instead of being 0; a failed run call resolves to outcome
Errored with the thrown string and leaves every other field unchanged, and
the mode-specific failure framing exists only in the rendered dialog text,
not in the run state. -/
theorem C4_run_resolution (t : Translation) (mode : InstallerMode) (s : RunState) (msg : String)
    (h : s.errorMessage = none) :
    ((resolveRun t mode s .success).outcome = .finished ∧
      (resolveRun t mode s .success).phase =
        (match mode with
          | .install => t.phaseFinishInstall
          | .update => t.phaseFinishUpdate) ∧
      (resolveRun t mode s .success).detail = "" ∧
      (resolveRun t mode s .success).progress = s.progress) ∧
    ((resolveRun t mode s (.failure msg)).outcome = .errored msg ∧
      (resolveRun t mode s (.failure msg)).phase = s.phase ∧
      (resolveRun t mode s (.failure msg)).detail = s.detail ∧
      (resolveRun t mode s (.failure msg)).progress = s.progress ∧
      (resolveRun t mode s (.failure msg)).alerts = s.alerts ∧
      errorDialogText t .install msg = t.installFailed ++ msg ∧
      errorDialogText t .update msg = t.updateFailed ++ msg) := by
  refine ⟨⟨?_, rfl, rfl, rfl⟩, rfl, rfl, rfl, rfl, rfl, rfl, rfl⟩
  simp [resolveRun, RunState.outcome, h]

/-- Claim C4, witness: scenario B, the update run throwing the string
disk full resolves to outcome Errored with that message, and the rendered
dialog applies the update failure framing. -/
theorem C4_run_resolution_witness :
    (resolveRun translationEn .update (initialState translationEn)
        (.failure "disk full")).outcome = .errored "disk full" ∧
      errorDialogText translationEn .update "disk full" =
        translationEn.updateFailed ++ "disk full" :=
  ⟨(C4_run_resolution translationEn .update (initialState translationEn) "disk full" rfl).2.1,
   (C4_run_resolution translationEn .update (initialState translationEn)
     "disk full" rfl).2.2.2.2.2.2.2⟩

/-- Claim C5, counterexample: a changePhase event with the unrecognised tag
mysteryPhase leaves the initial state entirely unchanged (detail was already
empty): no error is recorded, the outcome stays Running, and the run
continues, so the decoding violation is silently ignored rather than
treated as a fatal error surfaced to the user. -/
theorem C5_unknown_tag_not_fatal_cex :
    handleEvent translationEn (initialState translationEn) (.changePhase "mysteryPhase") =
        initialState translationEn ∧
      (handleEvent translationEn (initialState translationEn)
        (.changePhase "mysteryPhase")).outcome = .running ∧
      (handleEvent translationEn (initialState translationEn)
        (.changePhase "mysteryPhase")).errorMessage = none := by
  exact ⟨by decide, by decide, by decide⟩

/-- Claim C5, amended: a changePhase event whose tag is not one of the seven
recognised identifiers is silently ignored: no error is recorded, the
outcome, phase and alerts are unchanged (only detail is reset), and the run
continues. -/
theorem C5_unknown_tag_silently_ignored (t : Translation) (s : RunState) (tag : String)
    (h : tag ∉ knownPhaseTags) :
    (handleEvent t s (.changePhase tag)).errorMessage = s.errorMessage ∧
      (handleEvent t s (.changePhase tag)).outcome = s.outcome ∧
      (handleEvent t s (.changePhase tag)).phase = s.phase ∧
      (handleEvent t s (.changePhase tag)).alerts = s.alerts := by
  rw [handleEvent_changePhase_unknown t s tag h]
  exact ⟨rfl, rfl, rfl, rfl⟩

/-- Claim C5, witness: the amended statement at the initial state and the
unrecognised tag mysteryPhase. -/
theorem C5_unknown_tag_silently_ignored_witness :
    "mysteryPhase" ∉ knownPhaseTags ∧
      (handleEvent translationEn (initialState translationEn)
        (.changePhase "mysteryPhase")).outcome = (initialState translationEn).outcome :=
  ⟨by decide, (C5_unknown_tag_silently_ignored translationEn (initialState translationEn)
      "mysteryPhase" (by decide)).2.1⟩

/-- Claim C6, counterexample: an addAlert event whose translation key is not
a property of the translation table appends an alert whose message is
undefined (the dynamic property access yields undefined), not the raw key
string; the run is not failed. -/
theorem C6_unknown_key_not_raw_cex :
    (handleEvent translationEn (initialState translationEn)
        (.addAlert .info "notARealKey")).alerts =
        [{ level := .info, message := none }] ∧
      (handleEvent translationEn (initialState translationEn)
        (.addAlert .info "notARealKey")).alerts ≠
        [{ level := .info, message := some "notARealKey" }] ∧
      (handleEvent translationEn (initialState translationEn)
        (.addAlert .info "notARealKey")).errorMessage = none := by
  exact ⟨by decide, by decide, by decide⟩

/-- Claim C6, amended: every addAlert event appends one alert whose message
is the result of resolving the key against the translation table; a key
that is a property of the table resolves to that property (shown for the
three alert keys the engine emits), an absent key yields an undefined
message rather than the raw key, and in either case nothing else changes,
so the run is not failed. -/
theorem C6_alert_appended (t : Translation) (s : RunState) (level : AlertLevel) (key : String) :
    (handleEvent t s (.addAlert level key)).alerts =
        s.alerts ++ [{ level := level, message := t.lookup key }] ∧
      (handleEvent t s (.addAlert level key)).errorMessage = s.errorMessage ∧
      (handleEvent t s (.addAlert level key)).outcome = s.outcome ∧
      (handleEvent t s (.addAlert level key)).phase = s.phase ∧
      (handleEvent t s (.addAlert level key)).progress = s.progress ∧
      t.lookup "alertOnLaunchModLoader" = some t.alertOnLaunchModLoader ∧
      t.lookup "alertOnFailedAddProfile" = some t.alertOnFailedAddProfile ∧
      t.lookup "alertOnFailedLaunchModLoader" = some t.alertOnFailedLaunchModLoader :=
  ⟨rfl, rfl, rfl, rfl, rfl, rfl, rfl, rfl⟩

/-- Claim C7: the one-shot start guard. The first effect invocation (ref
still false) sets the ref and starts the run; every invocation finding the
ref set returns without starting; in particular the invocation following
any invocation never starts a second run. -/
theorem C7_one_shot_guard :
    installerEffect false = (true, true) ∧
      installerEffect true = (true, false) ∧
      ∀ b : Bool, installerEffect (installerEffect b).1 = ((installerEffect b).1, false) := by
  refine ⟨rfl, rfl, fun b => ?_⟩
  cases b <;> rfl

/-- Claim C8, counterexample: a rejection carrying the empty string as its
error is displayed with the fallback literal, not with the error string
itself, because the JavaScript or-expression treats the empty string as
absent. -/
theorem C8_empty_error_fallback_cex :
    (onModeSelect translationEn
        { screen := .title, installerMode := none, errorMessage := none }
        .update { isAccept := false, error := some "" }).errorMessage =
        some (translationEn.occurredError ++ "<unknown error>") ∧
      translationEn.occurredError ++ "<unknown error>" ≠
        translationEn.occurredError ++ "" := by
  exact ⟨by decide, by decide⟩

/-- Claim C8, amended: on a rejected mode selection the app stays on the
title screen with no run state created and shows the rejection error (the
fallback literal standing in when the error is absent or empty, since the
JavaScript or-expression treats both as falsy); on an accepted selection
the app freezes the accepted mode and switches to the installer screen. -/
theorem C8_mode_select (t : Translation) (st : AppState) (mode : InstallerMode)
    (result : ModeResult) :
    (result.isAccept = false →
      (onModeSelect t st mode result).screen = st.screen ∧
        (onModeSelect t st mode result).installerMode = st.installerMode ∧
        (onModeSelect t st mode result).errorMessage =
          some (t.occurredError ++ orFallback result.error)) ∧
    (result.isAccept = true →
      (onModeSelect t st mode result).screen = .installer ∧
        (onModeSelect t st mode result).installerMode = some mode ∧
        (onModeSelect t st mode result).errorMessage = st.errorMessage) := by
  constructor
  · intro h
    simp [onModeSelect, h]
  · intro h
    simp [onModeSelect, h]

/-- Claim C8, witness: a rejected selection with an explicit error keeps the
title screen and records the message; an accepted update selection freezes
the mode and enters the installer screen. -/
theorem C8_mode_select_witness :
    ((onModeSelect translationEn
        { screen := .title, installerMode := none, errorMessage := none }
        .update { isAccept := false, error := some "no config" }).screen = .title ∧
      (onModeSelect translationEn
        { screen := .title, installerMode := none, errorMessage := none }
        .update { isAccept := false, error := some "no config" }).installerMode = none ∧
      (onModeSelect translationEn
        { screen := .title, installerMode := none, errorMessage := none }
        .update { isAccept := false, error := some "no config" }).errorMessage =
        some (translationEn.occurredError ++ orFallback (some "no config"))) ∧
    ((onModeSelect translationEn
        { screen := .title, installerMode := none, errorMessage := none }
        .update { isAccept := true, error := none }).screen = .installer ∧
      (onModeSelect translationEn
        { screen := .title, installerMode := none, errorMessage := none }
        .update { isAccept := true, error := none }).installerMode = some .update ∧
      (onModeSelect translationEn
        { screen := .title, installerMode := none, errorMessage := none }
        .update { isAccept := true, error := none }).errorMessage = none) :=
  ⟨(C8_mode_select translationEn
      { screen := .title, installerMode := none, errorMessage := none }
      .update { isAccept := false, error := some "no config" }).1 rfl,
   (C8_mode_select translationEn
      { screen := .title, installerMode := none, errorMessage := none }
      .update { isAccept := true, error := none }).2 rfl⟩

/-- Claim C9: dismissing the alert at a render position removes exactly the
element at that position and preserves the relative order of all others
(the index filter agrees with positional erasure); in particular dismissing
the middle of three alerts A, B, C leaves exactly A then C. -/
theorem C9_alert_removal (l : List AlertInfo) (i : ℕ) (A B C : AlertInfo) :
    removeAlert l i = l.eraseIdx i ∧ removeAlert [A, B, C] 1 = [A, C] := by
  have key : ∀ (l2 : List AlertInfo) (j : ℕ), removeAlert l2 j = l2.eraseIdx j := by
    intro l2 j
    have h := removeAlertAux l2 0 j
    simpa [removeAlert, List.enum] using h
  exact ⟨key l i, by rw [key]; rfl⟩

/-- Claim C10: a changePhase event with an unrecognised tag resets detail to
the empty string and changes nothing else: phase, progress, alerts,
isFinished, errorMessage and hence the outcome are untouched, and the run
keeps processing subsequent events. -/
theorem C10_unknown_tag_frame (t : Translation) (s : RunState) (tag : String)
    (h : tag ∉ knownPhaseTags) :
    handleEvent t s (.changePhase tag) = { s with detail := "" } ∧
      (handleEvent t s (.changePhase tag)).outcome = s.outcome := by
  have k := handleEvent_changePhase_unknown t s tag h
  exact ⟨k, by rw [k]; rfl⟩

/-- Claim C10, witness: the frame property at a concrete state with
non-trivial phase, detail and progress, and the unrecognised tag
bogusTag. -/
theorem C10_unknown_tag_frame_witness :
    handleEvent translationEn
        { phase := "p", detail := "d", progress := 7, isFinished := false,
          alerts := [], errorMessage := none }
        (.changePhase "bogusTag") =
      { phase := "p", detail := "", progress := 7, isFinished := false,
        alerts := [], errorMessage := none } :=
  (C10_unknown_tag_frame translationEn
    { phase := "p", detail := "d", progress := 7, isFinished := false,
      alerts := [], errorMessage := none }
    "bogusTag" (by decide)).1

end Makibania
